import Mathlib

/-!
Verification development for the multi-agent health/wellness orchestrator.

Shallow embedding of the supervisor routing state machine and the responder
agents of `src/agent/agent.py` (shared session state declared in
`src/agent/router.py`), plus the three external data-fetch tools of
`src/agent/tools.py`.  LLM calls and external HTTP/database collaborators are
modelled as oracle parameters: the functions below reproduce the Python
control flow exactly, with Python exceptions made explicit as `Except` values.
-/

namespace Happ

/-- JSON values, used for the opaque `context` blob and the records the
external data-fetch collaborators return. -/
inductive JValue where
  | jnull
  | jbool (b : Bool)
  | jnum (n : Int)
  | jstr (s : String)
  | jarr (elems : List JValue)
  | jobj (fields : List (String × JValue))

/-- Python truthiness of a JSON value (`if not data: ...`). -/
def truthy : JValue → Bool
  | .jnull => false
  | .jbool b => b
  | .jnum n => n != 0
  | .jstr s => !s.isEmpty
  | .jarr l => !l.isEmpty
  | .jobj f => !f.isEmpty

/-- Python dict assignment `d[k] = v` on an association-list model of a dict
with unique keys: replace in place when the key exists, append otherwise. -/
def dictSet {α : Type} (d : List (String × α)) (k : String) (v : α) :
    List (String × α) :=
  match d with
  | [] => [(k, v)]
  | (k', v') :: rest => if k' = k then (k, v) :: rest else (k', v') :: dictSet rest k v

/-- One record of the append-only conversation log.  Every entry the system
appends is a langchain `HumanMessage`; its optional `name` identifies the
authoring agent (the initial user message carries no name). -/
structure Message where
  content : String
  name : Option String
deriving DecidableEq

/-- The langgraph `State` TypedDict of `src/agent/router.py`: conversation
messages plus the shared session-state channels.  Channels that the TypedDict
marks `Optional` (or that may simply be absent from the dict) are `Option`s;
`next` is likewise absent until first written. -/
structure State where
  messages : List Message
  next : Option String
  context : Option (List (String × JValue))
  flow : Option String
  queue : Option (List String)
  results : Option (List (String × String))

/-- A partial state patch, as carried in a langgraph `Command(update=...)`
dict.  `none` in an outer `Option` means the key is absent from the update
dict and the channel keeps its value; `messages` entries are appended by the
`add_messages` reducer of `MessagesState`. -/
structure Update where
  messages : List Message := []
  next : Option String := none
  flow : Option (Option String) := none
  queue : Option (Option (List String)) := none
  results : Option (Option (List (String × String))) := none

/-- A langgraph `Command(goto=..., update=...)`. -/
structure Command where
  goto : String
  update : Update

/-- Application of an update dict to the session state: `messages` appends
(the `add_messages` reducer), every other present key overwrites its channel;
no code path ever writes the `context` channel. -/
def applyUpdate (s : State) (u : Update) : State :=
  { messages := s.messages ++ u.messages
    next := match u.next with | some v => some v | none => s.next
    context := s.context
    flow := u.flow.getD s.flow
    queue := u.queue.getD s.queue
    results := u.results.getD s.results }

/-- The langgraph `END` sentinel node name. -/
def END : String := "__end__"

/-- The combined PHS output: the f-string of `supervisor` (agent.py lines
40-46) after `.strip()`, with the stored diet fragment interpolated before
the stored exercise fragment inside the wrapper `<div>`. -/
def combinedHtml (diet_html ex_html : String) : String :=
  "<div class=\"personal-health-summary\">\n" ++
  "              <h2>Personal Health Summary</h2>\n" ++
  "              <div class=\"phs-section\">" ++ diet_html ++ "</div>\n" ++
  "              <div class=\"phs-section\">" ++ ex_html ++ "</div>\n" ++
  "            </div>"

/-- Guard `ctx.get("type") == "personal_health_summary"` where
`ctx = state.get("context") or {}`. -/
def ctxIsPhs (s : State) : Bool :=
  match (s.context.getD []).lookup "type" with
  | some (.jstr t) => t == "personal_health_summary"
  | _ => false

/-- Guard `not state.get("flow")`: the flow channel is absent, `None`, or the
empty (falsy) string. -/
def flowFalsy (s : State) : Bool :=
  s.flow.getD "" == ""

/-- Guard `not state.get("queue")`: the queue channel is absent, `None`, or
the empty (falsy) list. -/
def queueFalsy (s : State) : Bool :=
  (s.queue.getD []).isEmpty

/-- Which branch of the supervisor produced a decision (instrumentation of
the four-way branch structure; `classify` is the only branch that consults
the text-classification capability). -/
inductive SupBranch where
  | init
  | combine
  | dispatch
  | classify
deriving DecidableEq

/-- Outcome of the external text-classification call
(`llm_with_structure_output.ainvoke`): either a returned `next` label, or an
exception raised by the unreachable collaborator. -/
inductive ClassifierResult where
  | ok (label : String)
  | unreachable (err : String)

/-- The `supervisor` node of `src/agent/agent.py`.  The classifier outcome is
an oracle parameter; an `Except.error` result models a Python exception
propagating out of the node.  Each successful decision is tagged with the
branch that produced it. -/
def supervisor (s : State) (cls : ClassifierResult) :
    Except String (SupBranch × Command) :=
  if ctxIsPhs s then
    if flowFalsy s then
      .ok (.init,
        { goto := "diet_planer_agent"
          update := { flow := some (some "phs")
                      queue := some (some ["exercise_planer_agent"])
                      results := some (some []) } })
    else if queueFalsy s then
      let diet_html := ((s.results.getD []).lookup "diet_planer_agent").getD ""
      let ex_html := ((s.results.getD []).lookup "exercise_planer_agent").getD ""
      .ok (.combine,
        { goto := END
          update := { messages := [⟨combinedHtml diet_html ex_html, some "supervisor"⟩]
                      flow := some none
                      queue := some none } })
    else
      match s.queue with
      | some (a :: _) => .ok (.dispatch, { goto := a, update := {} })
      | _ => .error "KeyError: queue"
  else
    match cls with
    | .unreachable e => .error e
    | .ok label =>
      let g := if label = "FINISH" then END else label
      .ok (.classify, { goto := g, update := { next := some g } })

/-- The `diet_planer_agent` node.  `html` is the oracle for the react agent's
final LLM message content.  In the PHS flow it stores its fragment under its
own name and writes back the queue unchanged (`q = list(state.get("queue") or
[])` with no pop). -/
def diet_planer_agent (s : State) (html : String) : Command :=
  let base : Update := { messages := [⟨html, some "diet_planer_agent"⟩] }
  if s.flow = some "phs" then
    let results := dictSet ((s.results.getD [])) "diet_planer_agent" html
    let q := s.queue.getD []
    { goto := "supervisor", update := { base with results := some (some results)
                                                  queue := some (some q) } }
  else
    { goto := "supervisor", update := base }

/-- The `exercise_planer_agent` node.  In the PHS flow it stores its fragment
and pops itself from the head of the queue (`if q and q[0] ==
"exercise_planer_agent": q.pop(0)`). -/
def exercise_planer_agent (s : State) (html : String) : Command :=
  let base : Update := { messages := [⟨html, some "exercise_planer_agent"⟩] }
  if s.flow = some "phs" then
    let results := dictSet ((s.results.getD [])) "exercise_planer_agent" html
    let q := s.queue.getD []
    let q := match q with
      | a :: rest => if a = "exercise_planer_agent" then rest else a :: rest
      | [] => []
    { goto := "supervisor", update := { base with results := some (some results)
                                                  queue := some (some q) } }
  else
    { goto := "supervisor", update := base }

/-- The `health_centers_agent` node: appends the react agent's output under
its own name and returns to the supervisor. -/
def health_centers_agent (_s : State) (html : String) : Command :=
  { goto := "supervisor", update := { messages := [⟨html, some "health_centers_agent"⟩] } }

/-- The `medication_agent` node. -/
def medication_agent (_s : State) (html : String) : Command :=
  { goto := "supervisor", update := { messages := [⟨html, some "medication_agent"⟩] } }

/-- The `symtoms_checker_agent` node (spelling as in the source). -/
def symtoms_checker_agent (_s : State) (html : String) : Command :=
  { goto := "supervisor", update := { messages := [⟨html, some "symtoms_checker_agent"⟩] } }

/-- The `air_quality_checker_agent` node. -/
def air_quality_checker_agent (_s : State) (html : String) : Command :=
  { goto := "supervisor", update := { messages := [⟨html, some "air_quality_checker_agent"⟩] } }

/-- Node registry: the responder names the graph wires up, mapped to their
node functions. -/
def responderByName (name : String) : Option (State → String → Command) :=
  if name = "diet_planer_agent" then some diet_planer_agent
  else if name = "exercise_planer_agent" then some exercise_planer_agent
  else if name = "health_centers_agent" then some health_centers_agent
  else if name = "medication_agent" then some medication_agent
  else if name = "symtoms_checker_agent" then some symtoms_checker_agent
  else if name = "air_quality_checker_agent" then some air_quality_checker_agent
  else none

/-- Trace events of one graph run: a supervisor decision (tagged with the
branch that produced it and the chosen target) or a responder invocation. -/
inductive Event where
  | sup (branch : SupBranch) (goto : String)
  | agent (name : String)
deriving DecidableEq

/-- Oracles for one run: the classifier outcome of the k-th supervisor
invocation, and the LLM fragment produced by the k-th invocation of each
responder. -/
structure Oracles where
  cls : Nat → ClassifierResult
  html : String → Nat → String

/-- One graph execution, driven by the `Command.goto` of each node exactly as
langgraph dispatches them (`START → supervisor`, then each `Command` names
the next node).  `fuel` bounds the number of node executions; an
`Except.error` is a Python exception escaping a node (or fuel exhaustion). -/
def runAux (fuel : Nat) (o : Oracles) (node : String) (s : State) (k : Nat)
    (trace : List Event) : Except String (State × List Event) :=
  match fuel with
  | 0 => .error "out of fuel"
  | fuel + 1 =>
    if node = END then
      .ok (s, trace)
    else if node = "supervisor" then
      match supervisor s (o.cls k) with
      | .error e => .error e
      | .ok (b, cmd) =>
        runAux fuel o cmd.goto (applyUpdate s cmd.update) (k + 1)
          (trace ++ [Event.sup b cmd.goto])
    else
      match responderByName node with
      | some f =>
        let cmd := f s (o.html node k)
        runAux fuel o cmd.goto (applyUpdate s cmd.update) k
          (trace ++ [Event.agent node])
      | none => .error ("unknown node: " ++ node)

/-- Initial session state of one external request: the caller's message (a
nameless `HumanMessage`) plus its optional context blob; all other channels
are unset. -/
def initialState (userMsg : String) (ctx : Option (List (String × JValue))) : State :=
  { messages := [⟨userMsg, none⟩], next := none, context := ctx
    flow := none, queue := none, results := none }

/-- The context blob `{"type": "personal_health_summary"}` that triggers the
PHS composite flow. -/
def phsCtx : List (String × JValue) :=
  [("type", JValue.jstr "personal_health_summary")]

/-- A full PHS request run: user message `msg`, diet oracle `d`, exercise
oracle `e`.  The classifier oracle is irrelevant to this run but is supplied
as permanently unreachable, so any consultation of it would fail the run. -/
def phsRun (msg d e : String) : Except String (State × List Event) :=
  runAux 10 { cls := fun _ => .unreachable "classifier down"
              html := fun name _ => if name = "diet_planer_agent" then d else e }
    "supervisor" (initialState msg (some phsCtx)) 0 []

/-- Names of the responders invoked during a run, in order. -/
def agentTrace (tr : List Event) : List String :=
  tr.filterMap fun ev => match ev with
    | .agent n => some n
    | _ => none

/-- Supervisor decisions of a run: branch tag and chosen target, in order. -/
def supTrace (tr : List Event) : List (SupBranch × String) :=
  tr.filterMap fun ev => match ev with
    | .sup b g => some (b, g)
    | _ => none

/-- Number of supervisor decisions of a run taken by a given branch. -/
def countBranch (b : SupBranch) (tr : List Event) : Nat :=
  (supTrace tr).countP fun p => p.1 = b

/-- Content of the last log entry of a state, i.e. the emitted output the
polling layer returns (`result[-1]` in `main.py`). -/
def finalContent (s : State) : Option Message :=
  s.messages.getLast?

/-- Single computation step of the compiled graph: a supervisor decision
under some classifier outcome, or a responder invocation under some LLM
output.  Steps are taken liberally (any node may fire), which only enlarges
the reachable set the invariants below are proved over. -/
inductive Step : State → State → Prop where
  | sup (s : State) (cls : ClassifierResult) (b : SupBranch) (cmd : Command) :
      supervisor s cls = .ok (b, cmd) → Step s (applyUpdate s cmd.update)
  | agent (s : State) (name : String) (f : State → String → Command) (html : String) :
      responderByName name = some f → Step s (applyUpdate s (f s html).update)

/-- Session states reachable from some initial request state. -/
inductive Reachable : State → Prop where
  | init (msg : String) (ctx : Option (List (String × JValue))) :
      Reachable (initialState msg ctx)
  | step (s s' : State) : Reachable s → Step s s' → Reachable s'

/-- State invariant maintained by every transition: the flow channel is
`None` or exactly `"phs"`, a set flow implies the PHS context trigger, a
non-empty queue implies the flow is set, and the queue channel only ever
holds the absent, empty, or singleton-exercise queue. -/
structure GoodState (s : State) : Prop where
  flowOk : s.flow = none ∨ (s.flow = some "phs" ∧ ctxIsPhs s = true)
  queueFlow : ∀ q, s.queue = some q → q ≠ [] → s.flow = some "phs"
  queueShape : s.queue = none ∨ s.queue = some [] ∨
    s.queue = some ["exercise_planer_agent"]

/-! External data-fetch tools of `src/agent/tools.py`.  The HTTP/database
collaborators are oracle parameters delivering either a parsed response or a
raised exception (`Except.error`); the tool bodies below reproduce the Python
`try` blocks, and each tool wraps its body with the source's `except` clause.
Exception message texts stand in for Python's `str(e)`. -/

/-- Python `len(v)` on a JSON value: defined for sized values, a `TypeError`
otherwise. -/
def jlen : JValue → Except String Nat
  | .jarr l => .ok l.length
  | .jstr s => .ok s.length
  | .jobj f => .ok f.length
  | _ => .error "TypeError: object has no len"

/-- Python `v[0]` on a JSON value. -/
def jindex0 : JValue → Except String JValue
  | .jarr (x :: _) => .ok x
  | .jarr [] => .error "IndexError: 0"
  | .jstr s =>
    match s.data with
    | c :: _ => .ok (.jstr (String.mk [c]))
    | [] => .error "IndexError: 0"
  | .jobj _ => .error "KeyError: 0"
  | _ => .error "TypeError: not subscriptable"

/-- Python `v[k]` for a string key `k`. -/
def jget (v : JValue) (k : String) : Except String JValue :=
  match v with
  | .jobj f =>
    match f.lookup k with
    | some x => .ok x
    | none => .error ("KeyError: " ++ k)
  | _ => .error "TypeError: not subscriptable"

/-- Elements handed to `", ".join(...)` must all be strings, else a
`TypeError` is raised. -/
def strParts : List JValue → Except String (List String)
  | [] => .ok []
  | .jstr s :: rest => do pure (s :: (← strParts rest))
  | _ :: _ => .error "TypeError: join expects str"

/-- The four address columns `get_health_centers` concatenates for
geocoding, in source order. -/
def addrFields : List String :=
  ["practice_street_address", "practice_city_name", "practice_state_name",
   "practice_postal_code"]

/-- Enrichment of one provider record inside the loop of
`get_health_centers`: build the address string from the truthy address
fields, geocode it (the geocoder catches its own exceptions and yields
`(None, None)` on failure, modelled as `none`), and set the `latitude` and
`longitude` keys. -/
def hcEnrich (geo : String → Option (JValue × JValue))
    (rec : List (String × JValue)) : Except String (List (String × JValue)) := do
  let parts := addrFields.filterMap fun f =>
    match rec.lookup f with
    | some v => if truthy v then some v else none
    | none => none
  let parts := parts.filter truthy
  let strs ← strParts parts
  let address := String.intercalate ", " strs
  let (la, lo) := match geo address with
    | some p => (p.1, p.2)
    | none => (JValue.jnull, JValue.jnull)
  pure (dictSet (dictSet rec "latitude" la) "longitude" lo)

/-- Body of the `try` block of `get_health_centers`: `queryRes` is the
outcome of the Supabase query (`query.execute().data`, an exception when the
database call fails); an empty result set short-circuits to `[]`. -/
def hcBody (queryRes : Except String (List (List (String × JValue))))
    (geo : String → Option (JValue × JValue)) :
    Except String (List (List (String × JValue))) := do
  let data ← queryRes
  if data.isEmpty then
    pure []
  else
    data.mapM (hcEnrich geo)

/-- The `get_health_centers` tool: its whole body sits in a `try` whose
`except` clause returns `[]`, so no exception escapes. -/
def get_health_centers (queryRes : Except String (List (List (String × JValue))))
    (geo : String → Option (JValue × JValue)) : List (List (String × JValue)) :=
  match hcBody queryRes geo with
  | .ok l => l
  | .error _ => []

/-- Body of the `try` block of `get_medication_info`: `apiRes` is the parsed
OpenFDA response (`response.json()`; an exception covers network failure,
`raise_for_status` and JSON decoding).  Returns the first entry of the
`results` list when present and non-empty, `{}` otherwise. -/
def medBody (apiRes : Except String (List (String × JValue))) :
    Except String JValue := do
  let data ← apiRes
  match data.lookup "results" with
  | none => pure (.jobj [])
  | some v =>
    let n ← jlen v
    if n > 0 then jindex0 v else pure (.jobj [])

/-- The `get_medication_info` tool: the `except` clause turns any raised
exception into `{"error": str(e)}`. -/
def get_medication_info (apiRes : Except String (List (String × JValue))) : JValue :=
  match medBody apiRes with
  | .ok v => v
  | .error e => .jobj [("error", .jstr e)]

/-- Body of the `try` block of `get_air_quality`: `apiRes` is the parsed
AirNow response.  Falsy data yields the explicit no-data message; otherwise
the first pollutant record's fields are projected (a missing key raises,
caught by the tool's `except`). -/
def airBody (zip_code : String) (apiRes : Except String JValue) :
    Except String JValue := do
  let data ← apiRes
  if !truthy data then
    pure (.jobj [("message",
      .jstr ("No air quality data found for ZIP code " ++ zip_code ++ "."))])
  else do
    let pollutant ← jindex0 data
    let area ← jget pollutant "ReportingArea"
    let st ← jget pollutant "StateCode"
    let la ← jget pollutant "Latitude"
    let lo ← jget pollutant "Longitude"
    let pn ← jget pollutant "ParameterName"
    let aqi ← jget pollutant "AQI"
    let cat ← jget pollutant "Category"
    let catName ← jget cat "Name"
    let dt ← jget pollutant "DateObserved"
    let hr ← jget pollutant "HourObserved"
    let tz ← jget pollutant "LocalTimeZone"
    pure (.jobj [("area", area), ("state", st), ("latitude", la),
                 ("longitude", lo), ("pollutant", pn), ("aqi", aqi),
                 ("category", catName), ("observed_date", dt),
                 ("observed_hour", hr), ("timezone", tz)])

/-- The `get_air_quality` tool: the `except` clause turns any raised
exception into `{"error": str(e)}`. -/
def get_air_quality (zip_code : String) (apiRes : Except String JValue) : JValue :=
  match airBody zip_code apiRes with
  | .ok v => v
  | .error e => .jobj [("error", .jstr e)]

/-! Branch lemmas for the supervisor, one per transition rule. -/

/-- Flow-initialization branch of the supervisor. -/
lemma supervisor_init_eq (s : State) (cls : ClassifierResult)
    (hc : ctxIsPhs s = true) (hf : flowFalsy s = true) :
    supervisor s cls = .ok (.init,
      { goto := "diet_planer_agent"
        update := { flow := some (some "phs")
                    queue := some (some ["exercise_planer_agent"])
                    results := some (some []) } }) := by
  simp [supervisor, hc, hf]

/-- Flow-completion branch of the supervisor. -/
lemma supervisor_combine_eq (s : State) (cls : ClassifierResult)
    (hc : ctxIsPhs s = true) (hf : flowFalsy s = false) (hq : queueFalsy s = true) :
    supervisor s cls = .ok (.combine,
      { goto := END
        update := { messages :=
                      [⟨combinedHtml (((s.results.getD []).lookup "diet_planer_agent").getD "")
                         (((s.results.getD []).lookup "exercise_planer_agent").getD ""),
                        some "supervisor"⟩]
                    flow := some none
                    queue := some none } }) := by
  simp [supervisor, hc, hf, hq]

/-- In-flow dispatch branch of the supervisor. -/
lemma supervisor_dispatch_eq (s : State) (cls : ClassifierResult)
    (hc : ctxIsPhs s = true) (hf : flowFalsy s = false)
    (a : String) (rest : List String) (hqe : s.queue = some (a :: rest)) :
    supervisor s cls = .ok (.dispatch, { goto := a, update := {} }) := by
  simp [supervisor, hc, hf, queueFalsy, hqe]

/-- Classification branch of the supervisor on a returned label. -/
lemma supervisor_classify_eq (s : State) (label : String)
    (hc : ctxIsPhs s = false) :
    supervisor s (.ok label) = .ok (.classify,
      { goto := if label = "FINISH" then END else label
        update := { next := some (if label = "FINISH" then END else label) } }) := by
  simp [supervisor, hc]

/-- Classification branch of the supervisor when the classifier raises. -/
lemma supervisor_unreachable_eq (s : State) (e : String)
    (hc : ctxIsPhs s = false) :
    supervisor s (.unreachable e) = .error e := by
  simp [supervisor, hc]

/-- Non-empty queue channel extracted from a false emptiness guard. -/
lemma queue_of_not_falsy {s : State} (h : queueFalsy s = false) :
    ∃ a rest, s.queue = some (a :: rest) := by
  rcases hq : s.queue with _ | q
  · simp [queueFalsy, hq] at h
  · rcases q with _ | ⟨a, rest⟩
    · simp [queueFalsy, hq] at h
    · exact ⟨a, rest, rfl⟩

/-- Truthy flow channel extracted from a false falsiness guard. -/
lemma flow_of_not_falsy {s : State} (h : flowFalsy s = false) :
    ∃ t, s.flow = some t ∧ t ≠ "" := by
  rcases hf : s.flow with _ | t
  · simp [flowFalsy, hf] at h
  · refine ⟨t, rfl, ?_⟩
    intro ht
    simp [flowFalsy, hf, ht] at h

/-- Context channel is untouched by every update application. -/
lemma ctxIsPhs_applyUpdate (s : State) (u : Update) :
    ctxIsPhs (applyUpdate s u) = ctxIsPhs s := by
  simp [ctxIsPhs, applyUpdate]

/-- GoodState only inspects the flow, queue and context channels. -/
lemma goodState_congr {s s' : State} (hf : s'.flow = s.flow)
    (hq : s'.queue = s.queue) (hc : s'.context = s.context)
    (h : GoodState s) : GoodState s' := by
  obtain ⟨h1, h2, h3⟩ := h
  refine ⟨?_, ?_, ?_⟩
  · rcases h1 with h1 | ⟨hp, hctx⟩
    · exact Or.inl (hf.trans h1)
    · refine Or.inr ⟨hf.trans hp, ?_⟩
      rw [show ctxIsPhs s' = ctxIsPhs s by simp [ctxIsPhs, hc]]
      exact hctx
  · intro q hq' hne
    exact hf.trans (h2 q (hq ▸ hq') hne)
  · rw [hq]
    exact h3

/-- Updates that leave the flow and queue channels out preserve GoodState. -/
lemma goodState_applyUpdate_skip {s : State} {u : Update}
    (hf : u.flow = none) (hq : u.queue = none) (h : GoodState s) :
    GoodState (applyUpdate s u) := by
  refine goodState_congr ?_ ?_ ?_ h <;> simp [applyUpdate, hf, hq]

/-- Flow channel of a reachable flow-set state carries the PHS context. -/
lemma goodState_flow_ctx {s : State} (ih : GoodState s)
    (hphs : s.flow = some "phs") : ctxIsPhs s = true := by
  rcases ih.flowOk with h1 | ⟨_, h2⟩
  · rw [hphs] at h1; cases h1
  · exact h2

/-- A diet-responder step preserves the state invariant. -/
lemma goodState_diet_step (s : State) (html : String) (ih : GoodState s) :
    GoodState (applyUpdate s (diet_planer_agent s html).update) := by
  by_cases hphs : s.flow = some "phs"
  · refine ⟨?_, ?_, ?_⟩
    · refine Or.inr ⟨?_, ?_⟩
      · simp [diet_planer_agent, hphs, applyUpdate]
      · rw [ctxIsPhs_applyUpdate]
        exact goodState_flow_ctx ih hphs
    · intro q hq hne
      simp [diet_planer_agent, hphs, applyUpdate]
    · rcases ih.queueShape with h | h | h <;>
        simp [diet_planer_agent, hphs, applyUpdate, h]
  · refine goodState_applyUpdate_skip ?_ ?_ ih <;> simp [diet_planer_agent, hphs]

/-- An exercise-responder step preserves the state invariant. -/
lemma goodState_exercise_step (s : State) (html : String) (ih : GoodState s) :
    GoodState (applyUpdate s (exercise_planer_agent s html).update) := by
  by_cases hphs : s.flow = some "phs"
  · refine ⟨?_, ?_, ?_⟩
    · refine Or.inr ⟨?_, ?_⟩
      · simp [exercise_planer_agent, hphs, applyUpdate]
      · rw [ctxIsPhs_applyUpdate]
        exact goodState_flow_ctx ih hphs
    · intro q hq hne
      simp [exercise_planer_agent, hphs, applyUpdate]
    · rcases ih.queueShape with h | h | h <;>
        simp [exercise_planer_agent, hphs, applyUpdate, h]
  · refine goodState_applyUpdate_skip ?_ ?_ ih <;> simp [exercise_planer_agent, hphs]

/-- Every reachable session state satisfies the state invariant: the flow
channel is `None` or `"phs"`, a set flow implies the PHS context trigger, and
a non-empty queue implies a set flow. -/
lemma reachable_goodState {s : State} (h : Reachable s) : GoodState s := by
  induction h with
  | init msg ctx =>
    refine ⟨Or.inl rfl, ?_, Or.inl rfl⟩
    intro q hq hne
    simp [initialState] at hq
  | step s s' hr hstep ih =>
    cases hstep with
    | sup cls b cmd heq =>
      cases hcb : ctxIsPhs s with
      | false =>
        cases cls with
        | unreachable e =>
          rw [supervisor_unreachable_eq s e hcb] at heq
          cases heq
        | ok label =>
          rw [supervisor_classify_eq s label hcb] at heq
          injection heq with heq'
          cases heq'
          exact goodState_applyUpdate_skip rfl rfl ih
      | true =>
        cases hfb : flowFalsy s with
        | true =>
          rw [supervisor_init_eq s cls hcb hfb] at heq
          injection heq with heq'
          cases heq'
          refine ⟨?_, ?_, ?_⟩
          · refine Or.inr ⟨?_, ?_⟩
            · simp [applyUpdate]
            · rw [ctxIsPhs_applyUpdate]
              exact hcb
          · intro q hq hne
            simp [applyUpdate]
          · exact Or.inr (Or.inr (by simp [applyUpdate]))
        | false =>
          cases hqb : queueFalsy s with
          | true =>
            rw [supervisor_combine_eq s cls hcb hfb hqb] at heq
            injection heq with heq'
            cases heq'
            refine ⟨Or.inl (by simp [applyUpdate]), ?_, Or.inl (by simp [applyUpdate])⟩
            intro q hq hne
            simp [applyUpdate] at hq
          | false =>
            obtain ⟨a, rest, hqe⟩ := queue_of_not_falsy hqb
            rw [supervisor_dispatch_eq s cls hcb hfb a rest hqe] at heq
            injection heq with heq'
            cases heq'
            exact goodState_applyUpdate_skip rfl rfl ih
    | agent name f html hf =>
      unfold responderByName at hf
      split_ifs at hf <;> cases hf <;>
        first
        | exact goodState_diet_step s html ih
        | exact goodState_exercise_step s html ih
        | exact goodState_applyUpdate_skip rfl rfl ih

/-- A reachable state whose flow channel is truthy carries flow `"phs"` and
the PHS context trigger. -/
lemma reachable_flow_ctx {s : State} (hr : Reachable s)
    (hf : flowFalsy s = false) : s.flow = some "phs" ∧ ctxIsPhs s = true := by
  obtain ⟨t, ht, _⟩ := flow_of_not_falsy hf
  rcases (reachable_goodState hr).flowOk with h1 | ⟨hp, hc⟩
  · rw [ht] at h1; cases h1
  · exact ⟨hp, hc⟩

/-! Concrete snapshots of scenario B of the spec (a PHS request with user
message "plan my day", diet fragment "DIET", exercise fragment "EX"), used
as explicit inputs by witnesses and counterexamples. -/

/-- Scenario B request state. -/
def exS0 : State := initialState "plan my day" (some phsCtx)

/-- Scenario B after the supervisor's flow-initialization decision. -/
def exS1 : State :=
  applyUpdate exS0 { flow := some (some "phs")
                     queue := some (some ["exercise_planer_agent"])
                     results := some (some []) }

/-- Scenario B after the diet responder's turn. -/
def exS2 : State := applyUpdate exS1 (diet_planer_agent exS1 "DIET").update

/-- Scenario B after the supervisor's in-flow dispatch decision. -/
def exS3 : State := applyUpdate exS2 ({} : Update)

/-- Scenario B after the exercise responder's turn. -/
def exS4 : State := applyUpdate exS3 (exercise_planer_agent exS3 "EX").update

/-- Scenario B after the supervisor's flow-completion decision. -/
def exS5 : State :=
  applyUpdate exS4
    { messages := [⟨combinedHtml "DIET" "EX", some "supervisor"⟩]
      flow := some none
      queue := some none }

lemma exS1_reachable : Reachable exS1 :=
  Reachable.step exS0 exS1 (Reachable.init "plan my day" (some phsCtx))
    (Step.sup exS0 (.ok "x") .init
      { goto := "diet_planer_agent"
        update := { flow := some (some "phs")
                    queue := some (some ["exercise_planer_agent"])
                    results := some (some []) } } (by rfl))

lemma exS2_reachable : Reachable exS2 :=
  Reachable.step exS1 exS2 exS1_reachable
    (Step.agent exS1 "diet_planer_agent" diet_planer_agent "DIET" (by rfl))

lemma exS3_reachable : Reachable exS3 :=
  Reachable.step exS2 exS3 exS2_reachable
    (Step.sup exS2 (.ok "x") .dispatch { goto := "exercise_planer_agent", update := {} }
      (by rfl))

lemma exS4_reachable : Reachable exS4 :=
  Reachable.step exS3 exS4 exS3_reachable
    (Step.agent exS3 "exercise_planer_agent" exercise_planer_agent "EX" (by rfl))

lemma exS5_reachable : Reachable exS5 :=
  Reachable.step exS4 exS5 exS4_reachable
    (Step.sup exS4 (.ok "x") .combine
      { goto := END
        update := { messages := [⟨combinedHtml "DIET" "EX", some "supervisor"⟩]
                    flow := some none
                    queue := some none } } (by rfl))

/-- A no-context request state (scenario A/C shape), for the classifier
branch. -/
def noCtxS : State := initialState "I have a headache and fever" none

/-- C1: for every request whose context has type `personal_health_summary`,
the run invokes exactly the diet responder then the exercise responder, the
supervisor's decisions are flow-init to diet, in-flow dispatch to exercise,
then flow-completion to END — never the classification branch (the run's
classifier oracle is even unreachable, so any consultation would fail the
run) — and the final emitted log entry is the supervisor-authored wrapper
with the diet fragment placed before the exercise fragment. -/
theorem phs_flow_determinism (msg d e : String) :
    (phsRun msg d e).toOption.map
        (fun p => (agentTrace p.2, supTrace p.2, finalContent p.1)) =
      some (["diet_planer_agent", "exercise_planer_agent"],
            [(SupBranch.init, "diet_planer_agent"),
             (SupBranch.dispatch, "exercise_planer_agent"),
             (SupBranch.combine, END)],
            some ⟨combinedHtml d e, some "supervisor"⟩) := by
  rfl

/-- C4: whenever the context carries the PHS trigger and the flow channel is
unset, the supervisor initializes the flow — `flow = "phs"`, `queue =
["exercise_planer_agent"]`, `results = {}` — and routes to the diet
responder; and in a full PHS run this initialization decision fires exactly
once. -/
theorem phs_init_transition :
    (∀ (s : State) (cls : ClassifierResult), ctxIsPhs s = true → flowFalsy s = true →
      supervisor s cls = .ok (.init,
        { goto := "diet_planer_agent"
          update := { flow := some (some "phs")
                      queue := some (some ["exercise_planer_agent"])
                      results := some (some []) } })) ∧
    (∀ msg d e : String,
      (phsRun msg d e).toOption.map (fun p => countBranch .init p.2) = some 1) := by
  constructor
  · exact fun s cls hc hf => supervisor_init_eq s cls hc hf
  · intro msg d e
    rfl

/-- C4 witness: the initialization decision at the concrete scenario B
request state. -/
theorem phs_init_transition_witness :
    supervisor exS0 (.ok "x") = .ok (.init,
      { goto := "diet_planer_agent"
        update := { flow := some (some "phs")
                    queue := some (some ["exercise_planer_agent"])
                    results := some (some []) } }) :=
  phs_init_transition.1 exS0 (.ok "x") rfl rfl

/-- C7: every responder, on every input state and every LLM output, routes
back to the supervisor — never to END and never to another responder. -/
theorem responders_route_to_supervisor (s : State) (html : String) :
    (diet_planer_agent s html).goto = "supervisor" ∧
    (exercise_planer_agent s html).goto = "supervisor" ∧
    (health_centers_agent s html).goto = "supervisor" ∧
    (medication_agent s html).goto = "supervisor" ∧
    (symtoms_checker_agent s html).goto = "supervisor" ∧
    (air_quality_checker_agent s html).goto = "supervisor" ∧
    ("supervisor" : String) ≠ END := by
  refine ⟨?_, ?_, rfl, rfl, rfl, rfl, by decide⟩
  · by_cases h : s.flow = some "phs" <;> simp [diet_planer_agent, h]
  · by_cases h : s.flow = some "phs" <;> simp [exercise_planer_agent, h]

/-- C9: each external data-fetch tool is total over every collaborator
outcome: a raised exception or an empty result is mapped to the source's
explicit indicator (`[]` for `get_health_centers`, `{}` or `{"error": ...}`
for `get_medication_info`, `{"message": ...}` or `{"error": ...}` for
`get_air_quality`), and in general every body failure is caught, so no raw
exception propagates out of a tool. -/
theorem tools_never_raise :
    (∀ (e : String) (geo : String → Option (JValue × JValue)),
       get_health_centers (.error e) geo = []) ∧
    (∀ geo : String → Option (JValue × JValue), get_health_centers (.ok []) geo = []) ∧
    (∀ (q : Except String (List (List (String × JValue))))
       (geo : String → Option (JValue × JValue)),
       (∃ l, hcBody q geo = .ok l ∧ get_health_centers q geo = l) ∨
       (∃ e, hcBody q geo = .error e ∧ get_health_centers q geo = [])) ∧
    (∀ e : String, get_medication_info (.error e) = .jobj [("error", .jstr e)]) ∧
    (get_medication_info (.ok []) = .jobj []) ∧
    (get_medication_info (.ok [("results", .jarr [])]) = .jobj []) ∧
    (∀ r : Except String (List (String × JValue)),
       (∃ v, medBody r = .ok v ∧ get_medication_info r = v) ∨
       (∃ e, medBody r = .error e ∧
         get_medication_info r = .jobj [("error", .jstr e)])) ∧
    (∀ z e : String, get_air_quality z (.error e) = .jobj [("error", .jstr e)]) ∧
    (∀ z : String, get_air_quality z (.ok (.jarr [])) =
       .jobj [("message",
         .jstr ("No air quality data found for ZIP code " ++ z ++ "."))]) ∧
    (∀ (z : String) (r : Except String JValue),
       (∃ v, airBody z r = .ok v ∧ get_air_quality z r = v) ∨
       (∃ e, airBody z r = .error e ∧
         get_air_quality z r = .jobj [("error", .jstr e)])) := by
  refine ⟨fun e geo => rfl, fun geo => rfl, ?_, fun e => rfl, rfl, rfl, ?_,
    fun z e => rfl, fun z => rfl, ?_⟩
  · intro q geo
    cases h : hcBody q geo with
    | ok l => exact Or.inl ⟨l, rfl, by simp [get_health_centers, h]⟩
    | error e => exact Or.inr ⟨e, rfl, by simp [get_health_centers, h]⟩
  · intro r
    cases h : medBody r with
    | ok v => exact Or.inl ⟨v, rfl, by simp [get_medication_info, h]⟩
    | error e => exact Or.inr ⟨e, rfl, by simp [get_medication_info, h]⟩
  · intro z r
    cases h : airBody z r with
    | ok v => exact Or.inl ⟨v, rfl, by simp [get_air_quality, h]⟩
    | error e => exact Or.inr ⟨e, rfl, by simp [get_air_quality, h]⟩

/-- C10: the flow-completion composition is total: whenever the PHS context
is set, the flow is set and the queue is empty, the supervisor produces the
composed wrapper from the stored fragments with each missing fragment
defaulting to the empty string — in particular an absent results map yields
the wrapper around two empty fragments, and no lookup failure occurs.  (In
every reachable flow-set state the PHS context hypothesis holds, by
`reachable_flow_ctx`.) -/
theorem combine_total_missing_results (s : State) (cls : ClassifierResult)
    (hc : ctxIsPhs s = true) (hf : flowFalsy s = false) (hq : queueFalsy s = true) :
    supervisor s cls = .ok (.combine,
      { goto := END
        update := { messages :=
                      [⟨combinedHtml (((s.results.getD []).lookup "diet_planer_agent").getD "")
                         (((s.results.getD []).lookup "exercise_planer_agent").getD ""),
                        some "supervisor"⟩]
                    flow := some none
                    queue := some none } }) ∧
    (s.results = none →
      supervisor s cls = .ok (.combine,
        { goto := END
          update := { messages := [⟨combinedHtml "" "", some "supervisor"⟩]
                      flow := some none
                      queue := some none } })) := by
  have h1 := supervisor_combine_eq s cls hc hf hq
  refine ⟨h1, fun hres => ?_⟩
  rw [hres] at h1
  exact h1

/-- Flow-set, queue-empty session state carrying no results map. -/
def noResultsS : State :=
  { messages := [], next := none, context := some phsCtx
    flow := some "phs", queue := some [], results := none }

/-- C10 witness: flow-set, queue-empty state with no results map at all. -/
theorem combine_total_missing_results_witness :
    supervisor noResultsS (.ok "x") =
      .ok (.combine,
        { goto := END
          update := { messages := [⟨combinedHtml "" "", some "supervisor"⟩]
                      flow := some none
                      queue := some none } }) :=
  (combine_total_missing_results noResultsS (.ok "x") rfl rfl rfl).2 rfl

/-- C5: in every reachable state with the flow set, the supervisor, when the
queue is empty, composes the stored diet fragment before the stored exercise
fragment inside the wrapper, appends it to the log as a supervisor-authored
turn, and routes to END; and when the queue is non-empty its decision never
routes to END and never clears the flow — flow completion is the only exit
of the flow. -/
theorem phs_combine_exit (s : State) (cls : ClassifierResult)
    (hr : Reachable s) (hf : flowFalsy s = false) :
    (queueFalsy s = true →
      supervisor s cls = .ok (.combine,
        { goto := END
          update := { messages :=
                        [⟨combinedHtml (((s.results.getD []).lookup "diet_planer_agent").getD "")
                           (((s.results.getD []).lookup "exercise_planer_agent").getD ""),
                          some "supervisor"⟩]
                      flow := some none
                      queue := some none } })) ∧
    (queueFalsy s = false → ∀ b cmd, supervisor s cls = .ok (b, cmd) →
      cmd.goto ≠ END ∧ cmd.update.flow = none) := by
  obtain ⟨hphs, hctx⟩ := reachable_flow_ctx hr hf
  constructor
  · intro hq
    exact supervisor_combine_eq s cls hctx hf hq
  · intro hq b cmd heq
    obtain ⟨a, rest, hqe⟩ := queue_of_not_falsy hq
    rcases (reachable_goodState hr).queueShape with h | h | h
    · rw [hqe] at h; cases h
    · rw [hqe] at h
      injection h with h'
      cases h'
    · rw [hqe] at h
      injection h with h'
      injection h' with ha hrest
      subst ha
      subst hrest
      rw [supervisor_dispatch_eq s cls hctx hf _ _ hqe] at heq
      injection heq with heq'
      cases heq'
      exact ⟨by decide, rfl⟩

/-- C5 witness: the completion decision fires at the concrete scenario B
state after the exercise responder emptied the queue, and the in-flow
dispatch decision one hop earlier neither routed to END nor cleared the
flow. -/
theorem phs_combine_exit_witness :
    (supervisor exS4 (.ok "x") = .ok (.combine,
      { goto := END
        update := { messages := [⟨combinedHtml "DIET" "EX", some "supervisor"⟩]
                    flow := some none
                    queue := some none } })) ∧
    (("exercise_planer_agent" : String) ≠ END ∧
      ({} : Update).flow = none) :=
  ⟨(phs_combine_exit exS4 (.ok "x") exS4_reachable rfl).1 rfl,
   (phs_combine_exit exS1 (.ok "x") exS1_reachable rfl).2 rfl .dispatch
     { goto := "exercise_planer_agent", update := {} } rfl⟩

/-- C6: in every reachable state with the flow set and a non-empty queue the
supervisor routes to the queue head with an empty update, leaving the queue
unchanged; the diet responder (not in the queue) writes the queue back
unchanged; and the exercise responder pops itself from the queue head upon
its own completion. -/
theorem phs_dispatch_no_pop :
    (∀ (s : State) (cls : ClassifierResult) (a : String) (rest : List String),
       Reachable s → flowFalsy s = false → s.queue = some (a :: rest) →
       supervisor s cls = .ok (.dispatch, { goto := a, update := {} }) ∧
       (applyUpdate s ({} : Update)).queue = s.queue) ∧
    (∀ (s : State) (html : String) (q : List String),
       s.flow = some "phs" → s.queue = some q →
       (applyUpdate s (diet_planer_agent s html).update).queue = some q) ∧
    (∀ (s : State) (html : String) (rest : List String),
       s.flow = some "phs" → s.queue = some ("exercise_planer_agent" :: rest) →
       (applyUpdate s (exercise_planer_agent s html).update).queue = some rest) := by
  refine ⟨?_, ?_, ?_⟩
  · intro s cls a rest hr hf hqe
    obtain ⟨hphs, hctx⟩ := reachable_flow_ctx hr hf
    exact ⟨supervisor_dispatch_eq s cls hctx hf a rest hqe, by simp [applyUpdate]⟩
  · intro s html q hphs hqe
    simp [diet_planer_agent, hphs, applyUpdate, hqe]
  · intro s html rest hphs hqe
    simp [exercise_planer_agent, hphs, applyUpdate, hqe]

/-- C6 witness: the concrete scenario B states — dispatch at the in-flow
state keeps the queue, the diet responder's update keeps the queue, the
exercise responder's update pops itself. -/
theorem phs_dispatch_no_pop_witness :
    (supervisor exS1 (.ok "x") =
        .ok (.dispatch, { goto := "exercise_planer_agent", update := {} }) ∧
      (applyUpdate exS1 ({} : Update)).queue = exS1.queue) ∧
    (applyUpdate exS1 (diet_planer_agent exS1 "DIET").update).queue =
      some ["exercise_planer_agent"] ∧
    (applyUpdate exS3 (exercise_planer_agent exS3 "EX").update).queue = some [] :=
  ⟨phs_dispatch_no_pop.1 exS1 (.ok "x") "exercise_planer_agent" [] exS1_reachable rfl rfl,
   phs_dispatch_no_pop.2.1 exS1 "DIET" ["exercise_planer_agent"] rfl rfl,
   phs_dispatch_no_pop.2.2 exS3 "EX" [] rfl rfl⟩

/-- C2 counterexample: the reachable state right after the flow-completion
decision of scenario B has `flow` and `queue` cleared but `results` still
holding both fragments — the fields are not all-cleared together, because
the exit update writes `flow: None, queue: None` and omits `results`. -/
theorem results_not_cleared_counterexample :
    Reachable exS5 ∧ exS5.flow = none ∧ exS5.queue = none ∧
      exS5.results = some [("diet_planer_agent", "DIET"),
                           ("exercise_planer_agent", "EX")] :=
  ⟨exS5_reachable, rfl, rfl, rfl⟩

/-- C2 amended: in every reachable state a non-empty queue implies the flow
is set (`queue` non-empty with `flow` unset is unobservable); the only
supervisor transition that clears `flow` clears `queue` in the same update
but omits `results`, which therefore persists; and no responder ever writes
the `flow` channel. -/
theorem flow_state_atomicity_amended :
    (∀ s : State, Reachable s → ∀ q, s.queue = some q → q ≠ [] →
       s.flow = some "phs") ∧
    (∀ (s : State) (cls : ClassifierResult) (b : SupBranch) (cmd : Command),
       supervisor s cls = .ok (b, cmd) → cmd.update.flow = some none →
       cmd.update.queue = some none ∧ cmd.update.results = none) ∧
    (∀ (name : String) (f : State → String → Command),
       responderByName name = some f →
       ∀ (s : State) (html : String), (f s html).update.flow = none) := by
  refine ⟨?_, ?_, ?_⟩
  · intro s hr q hq hne
    exact (reachable_goodState hr).queueFlow q hq hne
  · intro s cls b cmd heq hflow
    cases hcb : ctxIsPhs s with
    | false =>
      cases cls with
      | unreachable e =>
        rw [supervisor_unreachable_eq s e hcb] at heq
        cases heq
      | ok label =>
        rw [supervisor_classify_eq s label hcb] at heq
        injection heq with heq'
        cases heq'
        cases hflow
    | true =>
      cases hfb : flowFalsy s with
      | true =>
        rw [supervisor_init_eq s cls hcb hfb] at heq
        injection heq with heq'
        cases heq'
        cases hflow
      | false =>
        cases hqb : queueFalsy s with
        | true =>
          rw [supervisor_combine_eq s cls hcb hfb hqb] at heq
          injection heq with heq'
          cases heq'
          exact ⟨rfl, rfl⟩
        | false =>
          obtain ⟨a, rest, hqe⟩ := queue_of_not_falsy hqb
          rw [supervisor_dispatch_eq s cls hcb hfb a rest hqe] at heq
          injection heq with heq'
          cases heq'
          cases hflow
  · intro name f hf s html
    unfold responderByName at hf
    split_ifs at hf <;> cases hf <;>
      first
      | rfl
      | by_cases h : s.flow = some "phs" <;> simp [diet_planer_agent, h]
      | by_cases h : s.flow = some "phs" <;> simp [exercise_planer_agent, h]

/-- C2 amended witness: part one at the concrete in-flow state with the
non-empty queue, part two at the concrete completion decision, part three at
the diet responder. -/
theorem flow_state_atomicity_amended_witness :
    exS1.flow = some "phs" ∧
    (({ messages := [⟨combinedHtml "DIET" "EX", some "supervisor"⟩]
        flow := some none
        queue := some none } : Update).queue = some none ∧
      ({ messages := [⟨combinedHtml "DIET" "EX", some "supervisor"⟩]
         flow := some none
         queue := some none } : Update).results = none) ∧
    (diet_planer_agent exS1 "DIET").update.flow = none :=
  ⟨flow_state_atomicity_amended.1 exS1 exS1_reachable ["exercise_planer_agent"] rfl
     (by decide),
   flow_state_atomicity_amended.2.1 exS4 (.ok "x") .combine
     { goto := END
       update := { messages := [⟨combinedHtml "DIET" "EX", some "supervisor"⟩]
                   flow := some none
                   queue := some none } } rfl rfl,
   flow_state_atomicity_amended.2.2 "diet_planer_agent" diet_planer_agent rfl
     exS1 "DIET"⟩

/-- C3 counterexample: with no flow active and the classifier returning the
unrecognized label "foo_agent", the supervisor does not fail the turn (no
`RoutingError` type exists anywhere in the code): it returns an ordinary
routing command to the literal label. -/
theorem invalid_label_routed_counterexample :
    supervisor noCtxS (.ok "foo_agent") =
      .ok (.classify, { goto := "foo_agent", update := { next := some "foo_agent" } }) :=
  rfl

/-- C3 amended: for turns without the PHS context, an unreachable classifier
makes the supervisor propagate the underlying exception (failing the turn
with no log mutation and no default route), while a label outside the seven
valid values does not fail the turn at all: the supervisor routes to the
returned label verbatim, records it in `next`, mutates no log entry, and
never substitutes a default responder; the invalid label only fails later,
at the graph layer. -/
theorem classifier_failure_behavior_amended (s : State) (e label : String)
    (hc : ctxIsPhs s = false) (hlab : label ≠ "FINISH") :
    supervisor s (.unreachable e) = .error e ∧
    supervisor s (.ok label) =
      .ok (.classify, { goto := label, update := { next := some label } }) := by
  refine ⟨supervisor_unreachable_eq s e hc, ?_⟩
  rw [supervisor_classify_eq s label hc]
  simp [hlab]

/-- C3 amended witness: concrete no-context state, unreachable classifier
and the out-of-range label "foo_agent". -/
theorem classifier_failure_behavior_amended_witness :
    supervisor noCtxS (.unreachable "connection refused") = .error "connection refused" ∧
    supervisor noCtxS (.ok "foo_agent") =
      .ok (.classify, { goto := "foo_agent", update := { next := some "foo_agent" } }) :=
  classifier_failure_behavior_amended noCtxS "connection refused" "foo_agent" rfl
    (by decide)

/-- C8 counterexample: the flow-initialization decision routes to the diet
responder but writes no `next` key at all — after the decision the state's
`next` field does not hold the decided routing target. -/
theorem next_not_recorded_counterexample :
    supervisor exS0 (.ok "x") = .ok (.init,
      { goto := "diet_planer_agent"
        update := { flow := some (some "phs")
                    queue := some (some ["exercise_planer_agent"])
                    results := some (some []) } }) ∧
    exS1.next = none ∧ exS1.next ≠ some "diet_planer_agent" :=
  ⟨rfl, rfl, by decide⟩

/-- C8 amended: `next` is written only by the classification branch, which
records the routed target after converting FINISH to the END sentinel; the
flow-initialization, in-flow dispatch and flow-completion branches leave
`next` unchanged (their updates carry no `next` key). -/
theorem next_recorded_only_by_classifier :
    (∀ (s : State) (label : String), ctxIsPhs s = false →
       supervisor s (.ok label) = .ok (.classify,
         { goto := if label = "FINISH" then END else label
           update := { next := some (if label = "FINISH" then END else label) } })) ∧
    (∀ (s : State) (cls : ClassifierResult) (b : SupBranch) (cmd : Command),
       supervisor s cls = .ok (b, cmd) → b ≠ .classify →
       cmd.update.next = none) := by
  constructor
  · exact fun s label hc => supervisor_classify_eq s label hc
  · intro s cls b cmd heq hb
    cases hcb : ctxIsPhs s with
    | false =>
      cases cls with
      | unreachable e =>
        rw [supervisor_unreachable_eq s e hcb] at heq
        cases heq
      | ok label =>
        rw [supervisor_classify_eq s label hcb] at heq
        injection heq with heq'
        cases heq'
        exact absurd rfl hb
    | true =>
      cases hfb : flowFalsy s with
      | true =>
        rw [supervisor_init_eq s cls hcb hfb] at heq
        injection heq with heq'
        cases heq'
        rfl
      | false =>
        cases hqb : queueFalsy s with
        | true =>
          rw [supervisor_combine_eq s cls hcb hfb hqb] at heq
          injection heq with heq'
          cases heq'
          rfl
        | false =>
          obtain ⟨a, rest, hqe⟩ := queue_of_not_falsy hqb
          rw [supervisor_dispatch_eq s cls hcb hfb a rest hqe] at heq
          injection heq with heq'
          cases heq'
          rfl

/-- C8 amended witness: the classification branch at a concrete no-context
state records END for FINISH, and the concrete flow-initialization decision
carries no `next` key. -/
theorem next_recorded_only_by_classifier_witness :
    supervisor noCtxS (.ok "FINISH") = .ok (.classify,
      { goto := END, update := { next := some END } }) ∧
    ({ flow := some (some "phs")
       queue := some (some ["exercise_planer_agent"])
       results := some (some []) } : Update).next = none :=
  ⟨next_recorded_only_by_classifier.1 noCtxS "FINISH" rfl,
   next_recorded_only_by_classifier.2 exS0 (.ok "x") .init
     { goto := "diet_planer_agent"
       update := { flow := some (some "phs")
                   queue := some (some ["exercise_planer_agent"])
                   results := some (some []) } } rfl (by decide)⟩

end Happ
